import Mathlib

/-!
# Verification of the CCTV smart-hub application core

Shallow embedding of `src/application.py`: the frame-capture loop with motion
detection, the LED target/override state with its render-time resolution, and
the request endpoints (`/capture`, `/motion_status`, `/set_led`,
`/toggle_motion_led`, `/off_led`).

Modelling conventions:
* A frame is represented by its single-channel intensity image (`List Nat`,
  one intensity per pixel); `cv2.cvtColor(..., COLOR_BGR2GRAY)` is the map
  from a frame to that representation, modelled here as the identity on the
  intensity representation (`toGray`).
* Python floats are modelled as rationals (`ℚ`); `time.time()` values are
  passed in explicitly as rational `now` parameters.
* External side effects (file persistence via `cv2.imwrite`, Pushover push
  notifications) are recorded as explicit event values in the result of an
  endpoint; the formatted message text of a notification is elided, only the
  fact and kind of the emission is kept.
* The interleaving of the capture thread with concurrent readers is modelled
  by splitting each loop iteration into its atomic writes (the frame write,
  which happens under `frame_lock`, and the later unlocked motion write) and
  letting a reader observe the shared state between any two such writes.
-/

/-- Single-channel (grayscale) image: one intensity value per pixel. -/
abbrev Gray := List Nat

/-- A captured frame, represented by its single-channel intensity image. -/
abbrev Frame := List Nat

/-- `cv2.cvtColor(frame, cv2.COLOR_BGR2GRAY)`: conversion of a frame to its
single-channel intensity representation.  Frames are modelled at that
representation already, so the conversion is the identity. -/
def toGray (f : Frame) : Gray := f

/-- Absolute difference of two intensities (`cv2.absdiff`, per pixel). -/
def absdiffPx (x y : Nat) : Nat := max x y - min x y

/-- `cv2.absdiff(gray, prev_frame_gray)`: per-pixel absolute difference. -/
def absdiff (a b : List Nat) : List Nat := List.zipWith absdiffPx a b

/-- `cv2.threshold(diff, t, maxval, cv2.THRESH_BINARY)[1]`: each pixel
strictly above `t` becomes `maxval`, every other pixel becomes `0`. -/
def threshBinary (t maxval : Nat) (xs : List Nat) : List Nat :=
  xs.map (fun x => if t < x then maxval else 0)

/-- `np.count_nonzero(thresh)`. -/
def countNonzero (xs : List Nat) : Nat :=
  List.countP (fun x => decide (x ≠ 0)) xs

/-- The motion verdict computed in `capture_frames` (application.py:96-99):
`non_zero_count > 5000` for the 25/255 binary threshold of the absolute
difference between the current and the previous grayscale frame. -/
def motionVerdict (gray prev : Gray) : Bool :=
  decide (5000 < countNonzero (threshBinary 25 255 (absdiff gray prev)))

/-- An LED color: three channel intensities (`r`, `g`, `b`). -/
abbrev Color := ℚ × ℚ × ℚ

/-- The module-level mutable state of application.py that the loops and the
endpoints share: `latest_frame_full`, `prev_frame_gray`, `motion_detected`
(lines 78-83), `led_target`, `flash_override_end` (lines 151-152) and
`motion_led_auto` (line 176). -/
structure HubState where
  latest_frame_full : Option Frame
  prev_frame_gray : Option Gray
  motion_detected : Bool
  led_target : Color
  flash_override_end : ℚ
  motion_led_auto : Bool
deriving Repr, DecidableEq

/-- The initial values of the module-level variables:
`latest_frame_full = None`, `prev_frame_gray = None`, `motion_detected =
False`, `led_target = (0, 0, 0)`, `flash_override_end = 0`,
`motion_led_auto = True`. -/
def initHub : HubState :=
  { latest_frame_full := none
    prev_frame_gray := none
    motion_detected := false
    led_target := (0, 0, 0)
    flash_override_end := 0
    motion_led_auto := true }

/-- First atomic write of a `capture_frames` iteration (application.py:91-92):
under `frame_lock`, `latest_frame_full = frame.copy()`. -/
def captureWriteFrame (f : Frame) (s : HubState) : HubState :=
  { s with latest_frame_full := some f }

/-- Remaining writes of a `capture_frames` iteration (application.py:94-100),
performed without holding `frame_lock`: compute `gray`; if `prev_frame_gray`
exists, recompute and store `motion_detected`; always store `gray` as
`prev_frame_gray`. -/
def captureWriteMotion (f : Frame) (s : HubState) : HubState :=
  { s with
    prev_frame_gray := some (toGray f)
    motion_detected :=
      match s.prev_frame_gray with
      | none => s.motion_detected
      | some prev => motionVerdict (toGray f) prev }

/-- One complete successful iteration of the `capture_frames` loop. -/
def captureCycle (f : Frame) (s : HubState) : HubState :=
  captureWriteMotion f (captureWriteFrame f s)

/-- One iteration of the `capture_frames` loop where `picam2.capture_array()`
either returns a frame (`some f`) or raises (`none`); a raised error is caught
by the `except` clause (application.py:101-102), which logs and falls through
to the next iteration. -/
def captureCycleResult (res : Option Frame) (s : HubState) : HubState :=
  match res with
  | none => s
  | some f => captureCycle f s

/-! ## Interleaving semantics for the capture loop

Each loop iteration performs two atomic writes to reader-visible shared
state: the locked frame write and the later unlocked motion write.  A
concurrent reader observes the pair `(latest_frame_full, motion_detected)` at
one instant between two such writes. -/

/-- The sequence of atomic shared-state writes produced by running the
capture loop over the given frames, in program order. -/
def captureSteps : List Frame → List (HubState → HubState)
  | [] => []
  | f :: fs => captureWriteFrame f :: captureWriteMotion f :: captureSteps fs

/-- Apply the first `k` of a list of atomic steps to a state. -/
def runSteps : List (HubState → HubState) → Nat → HubState → HubState
  | _, 0, s => s
  | [], _ + 1, s => s
  | g :: gs, k + 1, s => runSteps gs k (g s)

/-- What a concurrent reader sees at one instant: the current
`(latest_frame_full, motion_detected)` pair. -/
def observedPair (s : HubState) : Option Frame × Bool :=
  (s.latest_frame_full, s.motion_detected)

/-- The pair a reader observes after the first `k` atomic writes of the
capture loop running over `fs` from state `s`. -/
def observeAt (s : HubState) (fs : List Frame) (k : Nat) : Option Frame × Bool :=
  observedPair (runSteps (captureSteps fs) k s)

/-- The `(frame, motion)` pairs that exist at iteration boundaries: the
initial pair of `s` and the pair after each complete iteration.  These are
the pairs "written together by a single put" of the specification. -/
def cyclePairs (s : HubState) : List Frame → List (Option Frame × Bool)
  | [] => [observedPair s]
  | f :: fs => observedPair s :: cyclePairs (captureCycle f s) fs

/-- The mixed pairs that exist mid-iteration: after the frame write of an
iteration but before its motion write, the new frame is paired with the
previous iteration's motion verdict. -/
def tornPairs (s : HubState) : List Frame → List (Option Frame × Bool)
  | [] => []
  | f :: fs => observedPair (captureWriteFrame f s) :: tornPairs (captureCycle f s) fs

/-! ## LED state and render-time resolution -/

/-- `set_led_target(new_color)` (application.py:154-158). -/
def set_led_target (c : Color) (s : HubState) : HubState :=
  { s with led_target := c }

/-- The `desired` color computed by one iteration of `led_update_loop`
(application.py:164-169): white while `now < flash_override_end`, otherwise
the target color. -/
def led_update_desired (s : HubState) (now : ℚ) : Color :=
  if now < s.flash_override_end then (1, 1, 1) else s.led_target

/-- The flash-override write performed by the `/capture` endpoint
(application.py:223-224): `flash_override_end = time.time() + 2`. -/
def set_flash_override (now : ℚ) (s : HubState) : HubState :=
  { s with flash_override_end := now + 2 }

/-! ## Request endpoints -/

/-- A push-notification emission (`send_push_notification`); the formatted
message text is elided, only the kind of notification is recorded. -/
inductive NotifyEvent
  | snapshot
  | ledStatus
deriving Repr, DecidableEq

/-- Response of an LED endpoint: `jsonify(success=True)` or a JSON error
body with an HTTP status code and a message. -/
inductive LedResponse
  | ok
  | rejected (code : Nat) (message : String)
deriving Repr, DecidableEq

/-- `off_led_endpoint` (application.py:191-196): set the target to
`(0, 0, 0)`, send a notification, return success. -/
def off_led_endpoint (s : HubState) : LedResponse × HubState × List NotifyEvent :=
  (.ok, set_led_target (0, 0, 0) s, [.ledStatus])

/-- `motion_status` (application.py:231-233): report `motion_detected`. -/
def motion_status (s : HubState) : Bool :=
  s.motion_detected

/-- A form value for one color channel: either a string that `float(...)`
parses to a number, or a string on which `float(...)` raises `ValueError`. -/
inductive FormVal
  | num (q : ℚ)
  | invalid
deriving Repr, DecidableEq

/-- The form payload of a `POST /set_led` request: each channel parameter may
be present or absent. -/
structure LedForm where
  red : Option FormVal
  green : Option FormVal
  blue : Option FormVal
deriving Repr, DecidableEq

/-- The channel computation of `set_led_endpoint` (application.py:245-250):
`request.form.get(name, 0)` defaults an absent parameter to `0`; each value
is parsed with `float` and divided by `100.0`; if any of the three parses
raises `ValueError`, the handler sets `r = g = b = 0`. -/
def parseChannels (form : LedForm) : Color :=
  match form.red.getD (.num 0), form.green.getD (.num 0), form.blue.getD (.num 0) with
  | .num r, .num g, .num b => (r / 100, g / 100, b / 100)
  | _, _, _ => (0, 0, 0)

/-- `set_led_endpoint` (application.py:235-255): rejected with HTTP 400 while
`motion_led_auto` is set; otherwise parse the channels, store them as the
target, notify, and return success. -/
def set_led_endpoint (form : LedForm) (s : HubState) :
    LedResponse × HubState × List NotifyEvent :=
  if s.motion_led_auto then
    (.rejected 400 "Motion LED auto mode is enabled.", s, [])
  else
    (.ok, set_led_target (parseChannels form) s, [.ledStatus])

/-- `toggle_motion_led` (application.py:257-262): flip `motion_led_auto` and
return the new value. -/
def toggle_motion_led (s : HubState) : Bool × HubState :=
  (!s.motion_led_auto, { s with motion_led_auto := !s.motion_led_auto })

/-- The captures directory (`CAPTURES_DIR`, application.py:66); the absolute
filesystem prefix is abstracted to its final component. -/
def CAPTURES_DIR : String := "captures"

/-- Response of the `/capture` endpoint: `("No frame available", 503)` or the
saved snapshot file. -/
inductive CaptureResponse
  | notReady (message : String) (code : Nat)
  | file (filepath : String)
deriving Repr, DecidableEq

/-- External side effects of a `/capture` request: files written by
`cv2.imwrite` and notifications emitted. -/
structure CaptureEffects where
  saved : List (String × Frame)
  notes : List NotifyEvent
deriving Repr, DecidableEq

/-- `capture` (application.py:207-229): with no frame yet, answer
`("No frame available", 503)` and change nothing; otherwise copy the frame,
write it to `CAPTURES_DIR/capture_<timestamp>.jpg`, set the flash override to
two seconds past `now`, notify, and return the file. -/
def capture (timestamp : String) (now : ℚ) (s : HubState) :
    CaptureResponse × HubState × CaptureEffects :=
  match s.latest_frame_full with
  | none => (.notReady "No frame available" 503, s, ⟨[], []⟩)
  | some f =>
      let filepath := CAPTURES_DIR ++ "/capture_" ++ timestamp ++ ".jpg"
      (.file filepath, set_flash_override now s, ⟨[(filepath, f)], [.snapshot]⟩)

/-! ## Helper lemmas about the motion pipeline -/

/-- The number of pixels whose intensities differ by strictly more than 25
between two grayscale images. -/
def diffCount (g p : Gray) : Nat :=
  List.countP (fun d => decide (25 < d)) (absdiff g p)

theorem countNonzero_threshBinary (t m : Nat) (hm : m ≠ 0) (xs : List Nat) :
    countNonzero (threshBinary t m xs) = List.countP (fun x => decide (t < x)) xs := by
  induction xs with
  | nil => rfl
  | cons x xs ih =>
      unfold threshBinary countNonzero at ih ⊢
      rw [List.map_cons, List.countP_cons, List.countP_cons, ih]
      by_cases h : t < x <;> simp [h, hm]

theorem motionVerdict_eq_diffCount (g p : Gray) :
    motionVerdict g p = decide (5000 < diffCount g p) := by
  simp [motionVerdict, diffCount, countNonzero_threshBinary 25 255 (by decide)]

theorem absdiffPx_self (x : Nat) : absdiffPx x x = 0 := by
  simp [absdiffPx]

theorem absdiff_self (g : Gray) : absdiff g g = List.replicate g.length 0 := by
  induction g with
  | nil => rfl
  | cons x xs ih => simp [absdiff, List.replicate_succ, absdiffPx_self, ih]

theorem countP_replicate (p : Nat → Bool) (n x : Nat) :
    List.countP p (List.replicate n x) = if p x then n else 0 := by
  induction n with
  | zero => simp
  | succ n ih => by_cases h : p x <;> simp [List.replicate_succ, List.countP_cons, ih, h]

theorem absdiff_replicate (n a b : Nat) :
    absdiff (List.replicate n a) (List.replicate n b) = List.replicate n (absdiffPx a b) := by
  induction n with
  | zero => rfl
  | succ n ih => simp [absdiff, List.replicate_succ, ih]

theorem diffCount_replicate (n a b : Nat) :
    diffCount (List.replicate n a) (List.replicate n b) =
      if 25 < absdiffPx a b then n else 0 := by
  simp [diffCount, absdiff_replicate, countP_replicate]

theorem diffCount_self (g : Gray) : diffCount g g = 0 := by
  simp [diffCount, absdiff_self, countP_replicate]

theorem motionVerdict_self (g : Gray) : motionVerdict g g = false := by
  simp [motionVerdict_eq_diffCount, diffCount_self]

/-! ## Concrete frames used in interleaving scenarios -/

/-- A uniformly black 5001-pixel frame. -/
def frameA : Frame := List.replicate 5001 0

/-- A uniform frame 30 intensity levels brighter than `frameA`: every pixel
differs from `frameA` by more than the 25 threshold. -/
def frameB : Frame := List.replicate 5001 30

/-- A uniform frame 20 intensity levels brighter than `frameB`: no pixel
differs from `frameB` by more than the 25 threshold. -/
def frameC : Frame := List.replicate 5001 50

theorem motionVerdict_frameB_frameA : motionVerdict frameB frameA = true := by
  unfold frameA frameB
  rw [motionVerdict_eq_diffCount, diffCount_replicate]
  decide

theorem motionVerdict_frameC_frameB : motionVerdict frameC frameB = false := by
  unfold frameB frameC
  rw [motionVerdict_eq_diffCount, diffCount_replicate]
  decide

theorem frame_replicate_ne {n a b : Nat} (hn : n ≠ 0) (h : a ≠ b) :
    List.replicate n a ≠ List.replicate n b :=
  fun he => h ((List.replicate_right_inj hn).mp he)

/-! ## Evaluation of a concrete interleaved run of the capture loop -/

theorem observeAt_three_frames_mid_cycle :
    observeAt initHub [frameA, frameB, frameC] 5 = (some frameC, true) := by
  simp [observeAt, captureSteps, runSteps, captureWriteFrame, captureWriteMotion,
    observedPair, initHub, toGray, motionVerdict_frameB_frameA]

theorem cyclePairs_three_frames :
    cyclePairs initHub [frameA, frameB, frameC] =
      [(none, false), (some frameA, false), (some frameB, true), (some frameC, false)] := by
  simp [cyclePairs, captureCycle, captureWriteFrame, captureWriteMotion, observedPair,
    initHub, toGray, motionVerdict_frameB_frameA, motionVerdict_frameC_frameB]

/-! ## Claim theorems -/

/-- Claim C1, counterexample.  The capture loop writes `latest_frame_full`
under `frame_lock` but writes `motion_detected` later and without any lock, so
a reader can observe a mixed pair.  Concretely: run the loop over the frames
`frameA, frameB, frameC` (whose completed-iteration pairs are
`(frameA, no-motion)`, `(frameB, motion)`, `(frameC, no-motion)`) and read
after five atomic writes, i.e. after the frame write of the third iteration
but before its motion write.  The reader sees `(frameC, motion)`, the frame of
the third cycle paired with the verdict of the second cycle — a pair that no
single iteration ever wrote together. -/
theorem C1_counterexample :
    observeAt initHub [frameA, frameB, frameC] 5 ∉ cyclePairs initHub [frameA, frameB, frameC] := by
  rw [observeAt_three_frames_mid_cycle, cyclePairs_three_frames]
  have hCB : frameC ≠ frameB := frame_replicate_ne (by decide) (by decide)
  simp [hCB]

/-- Claim C1, amended.  A concurrent point-in-time read of the shared
`(latest_frame_full, motion_detected)` pair observes either a pair that was in
place at an iteration boundary of the capture loop (the initial pair or a pair
produced by one complete iteration), or — when the read falls between the
locked frame write and the later unlocked motion write of an iteration — the
just-written frame of that iteration paired with the motion verdict still in
place from the preceding iteration. -/
theorem C1_observed_pair_whole_or_torn (s : HubState) (fs : List Frame) (k : Nat) :
    observeAt s fs k ∈ cyclePairs s fs ∨ observeAt s fs k ∈ tornPairs s fs := by
  induction fs generalizing s k with
  | nil =>
      left
      cases k <;> simp [observeAt, captureSteps, runSteps, cyclePairs]
  | cons f fs ih =>
      match k with
      | 0 => left; simp [observeAt, captureSteps, runSteps, cyclePairs]
      | 1 => right; simp [observeAt, captureSteps, runSteps, tornPairs]
      | (k + 2) =>
          have h : observeAt s (f :: fs) (k + 2) = observeAt (captureCycle f s) fs k := rfl
          rw [h]
          rcases ih (captureCycle f s) k with hmem | hmem
          · exact Or.inl (List.mem_cons_of_mem _ hmem)
          · exact Or.inr (List.mem_cons_of_mem _ hmem)

/-- If any of the three channel parameters is present but fails to parse as a
float, the handler's `except ValueError` clause zeroes all three channels. -/
theorem parseChannels_invalid (ro go bo : Option FormVal)
    (h : ro = some .invalid ∨ go = some .invalid ∨ bo = some .invalid) :
    parseChannels ⟨ro, go, bo⟩ = (0, 0, 0) := by
  rcases ro with _ | (r | -) <;> rcases go with _ | (g | -) <;> rcases bo with _ | (b | -) <;>
    simp_all [parseChannels]

/-- Claim C2: after the first frame, two identical consecutive frames yield a
no-motion verdict; if more than 5000 pixels differ in single-channel intensity
by more than the threshold of 25, the verdict is motion; on the very first
frame (from the initial state) the verdict is no motion and the intensity is
recorded as the detector's history. -/
theorem C2_motion_detector_verdicts (s : HubState) (f : Frame) (p : Gray) :
    (s.prev_frame_gray = some (toGray f) → (captureCycle f s).motion_detected = false) ∧
    (s.prev_frame_gray = some p → 5000 < diffCount (toGray f) p →
      (captureCycle f s).motion_detected = true) ∧
    ((captureCycle f initHub).motion_detected = false ∧
     (captureCycle f initHub).prev_frame_gray = some (toGray f)) := by
  refine ⟨?_, ?_, ?_⟩
  · intro h
    simp [captureCycle, captureWriteFrame, captureWriteMotion, h, motionVerdict_self]
  · intro h hcount
    simp [captureCycle, captureWriteFrame, captureWriteMotion, h,
      motionVerdict_eq_diffCount, hcount]
  · simp [captureCycle, captureWriteFrame, captureWriteMotion, initHub]

/-- Witness for C2 at concrete frames: a repeated `frameB` gives no motion; a
`frameA` to `frameB` transition (5001 pixels differing by 30) gives motion;
the first frame from the initial state gives no motion and records history. -/
theorem C2_motion_detector_verdicts_witness :
    (captureCycle frameB { initHub with prev_frame_gray := some (toGray frameB) }).motion_detected = false ∧
    (captureCycle frameB { initHub with prev_frame_gray := some frameA }).motion_detected = true ∧
    ((captureCycle frameB initHub).motion_detected = false ∧
     (captureCycle frameB initHub).prev_frame_gray = some (toGray frameB)) :=
  ⟨(C2_motion_detector_verdicts { initHub with prev_frame_gray := some (toGray frameB) }
      frameB frameA).1 rfl,
   (C2_motion_detector_verdicts { initHub with prev_frame_gray := some frameA }
      frameB frameA).2.1 rfl
      (by show 5000 < diffCount (toGray frameB) frameA
          unfold toGray frameA frameB
          rw [diffCount_replicate]
          decide),
   (C2_motion_detector_verdicts initHub frameB frameA).2.2⟩

/-- Claim C3: the effective color computed by the render loop is full white
`(1, 1, 1)` exactly while `now` is strictly before `flash_override_end`, and
the steady target color otherwise; in particular, after the `/capture`
endpoint arms the two-second override at `t0`, resolving strictly before
`t0 + 2` yields white and resolving at or after `t0 + 2` yields the steady
color. -/
theorem C3_effective_color_resolution (s : HubState) (now t0 : ℚ) :
    (now < s.flash_override_end → led_update_desired s now = (1, 1, 1)) ∧
    (s.flash_override_end ≤ now → led_update_desired s now = s.led_target) ∧
    (now < t0 + 2 → led_update_desired (set_flash_override t0 s) now = (1, 1, 1)) ∧
    (t0 + 2 ≤ now → led_update_desired (set_flash_override t0 s) now = s.led_target) := by
  refine ⟨fun h => ?_, fun h => ?_, fun h => ?_, fun h => ?_⟩
  · simp [led_update_desired, h]
  · simp [led_update_desired, not_lt.mpr h]
  · simp [led_update_desired, set_flash_override, h]
  · simp [led_update_desired, set_flash_override, not_lt.mpr h]

/-- Witness for C3 at concrete instants: with the override deadline at 10,
resolving at 5 yields white and at 10 yields the steady color; with an
override armed at 7, resolving at 8 yields white and at 9 yields the steady
color. -/
theorem C3_effective_color_resolution_witness :
    led_update_desired { initHub with flash_override_end := 10 } 5 = (1, 1, 1) ∧
    led_update_desired { initHub with flash_override_end := 10 } 10 = initHub.led_target ∧
    led_update_desired (set_flash_override 7 initHub) 8 = (1, 1, 1) ∧
    led_update_desired (set_flash_override 7 initHub) 9 = initHub.led_target :=
  ⟨(C3_effective_color_resolution { initHub with flash_override_end := 10 } 5 0).1
      (by norm_num),
   (C3_effective_color_resolution { initHub with flash_override_end := 10 } 10 0).2.1
      (by norm_num),
   (C3_effective_color_resolution initHub 8 7).2.2.1 (by norm_num),
   (C3_effective_color_resolution initHub 9 7).2.2.2 (by norm_num)⟩

/-- Claim C4: while `motion_led_auto` is set, `/set_led` answers the rejected
response with HTTP 400 and the explanatory message, and the whole state (in
particular the steady target color) is unchanged; while it is unset, the
request succeeds and the steady target is updated to the parsed channels. -/
theorem C4_manual_set_auto_mode_guard (form : LedForm) (s : HubState) :
    (s.motion_led_auto = true →
      set_led_endpoint form s =
        (.rejected 400 "Motion LED auto mode is enabled.", s, [])) ∧
    (s.motion_led_auto = false →
      (set_led_endpoint form s).1 = .ok ∧
      (set_led_endpoint form s).2.1.led_target = parseChannels form) := by
  constructor <;> intro h <;> simp [set_led_endpoint, h, set_led_target]

/-- Witness for C4: under the initial state (auto mode on) a concrete request
is rejected and the state kept; with auto mode off the same request succeeds
and stores the parsed channels. -/
theorem C4_manual_set_auto_mode_guard_witness :
    set_led_endpoint ⟨some (.num 50), none, none⟩ initHub =
      (.rejected 400 "Motion LED auto mode is enabled.", initHub, []) ∧
    ((set_led_endpoint ⟨some (.num 50), none, none⟩
        { initHub with motion_led_auto := false }).1 = .ok ∧
     (set_led_endpoint ⟨some (.num 50), none, none⟩
        { initHub with motion_led_auto := false }).2.1.led_target =
       parseChannels ⟨some (.num 50), none, none⟩) :=
  ⟨(C4_manual_set_auto_mode_guard ⟨some (.num 50), none, none⟩ initHub).1 rfl,
   (C4_manual_set_auto_mode_guard ⟨some (.num 50), none, none⟩
      { initHub with motion_led_auto := false }).2 rfl⟩

/-- Claim C5, counterexample.  The handler does not clamp channel values into
`[0, 1]`: a request of 200 percent stores channel value 2.  And an invalid
value is not confined to its own channel: an unparsable green zeroes red as
well (50 percent red is stored as 0, not as 1/2). -/
theorem C5_counterexample :
    (set_led_endpoint ⟨some (.num 200), some (.num 0), some (.num 0)⟩
        { initHub with motion_led_auto := false }).2.1.led_target = (2, 0, 0) ∧
    ¬ ((2 : ℚ) ≤ 1) ∧
    (set_led_endpoint ⟨some (.num 50), some .invalid, some (.num 0)⟩
        { initHub with motion_led_auto := false }).2.1.led_target = (0, 0, 0) ∧
    (0 : ℚ) ≠ 50 / 100 := by
  refine ⟨?_, by norm_num, ?_, by norm_num⟩
  · simp [set_led_endpoint, parseChannels, set_led_target, initHub]
    norm_num
  · simp [set_led_endpoint, parseChannels, set_led_target, initHub]

/-- Claim C5, amended: with `motion_led_auto` unset the request always
succeeds; numeric channel values are divided by 100 and written through
without clamping (out-of-range values pass through unchanged); a channel value
that fails to parse causes all three channels — not just its own — to be
treated as 0. -/
theorem C5_channel_parsing_amended (s : HubState) (form : LedForm) (r g b : ℚ)
    (hauto : s.motion_led_auto = false) :
    (set_led_endpoint form s).1 = .ok ∧
    (form.red = some (.num r) → form.green = some (.num g) → form.blue = some (.num b) →
      (set_led_endpoint form s).2.1.led_target = (r / 100, g / 100, b / 100)) ∧
    ((form.red = some .invalid ∨ form.green = some .invalid ∨ form.blue = some .invalid) →
      (set_led_endpoint form s).2.1.led_target = (0, 0, 0)) := by
  refine ⟨?_, ?_, ?_⟩
  · simp [set_led_endpoint, hauto]
  · intro hr hg hb
    simp [set_led_endpoint, hauto, set_led_target, parseChannels, hr, hg, hb]
  · intro h
    obtain ⟨ro, go, bo⟩ := form
    simp [set_led_endpoint, hauto, set_led_target, parseChannels_invalid ro go bo h]

/-- Witness for the amended C5 at concrete requests: an all-numeric request
stores the divided channels, and a request with an unparsable red stores
`(0, 0, 0)`, both with a success response. -/
theorem C5_channel_parsing_amended_witness :
    (set_led_endpoint ⟨some (.num 40), some (.num 60), some (.num 80)⟩
        { initHub with motion_led_auto := false }).1 = .ok ∧
    (set_led_endpoint ⟨some (.num 40), some (.num 60), some (.num 80)⟩
        { initHub with motion_led_auto := false }).2.1.led_target =
      (40 / 100, 60 / 100, 80 / 100) ∧
    (set_led_endpoint ⟨some .invalid, some (.num 60), some (.num 80)⟩
        { initHub with motion_led_auto := false }).2.1.led_target = (0, 0, 0) :=
  ⟨(C5_channel_parsing_amended { initHub with motion_led_auto := false }
      ⟨some (.num 40), some (.num 60), some (.num 80)⟩ 40 60 80 rfl).1,
   (C5_channel_parsing_amended { initHub with motion_led_auto := false }
      ⟨some (.num 40), some (.num 60), some (.num 80)⟩ 40 60 80 rfl).2.1 rfl rfl rfl,
   (C5_channel_parsing_amended { initHub with motion_led_auto := false }
      ⟨some .invalid, some (.num 60), some (.num 80)⟩ 0 0 0 rfl).2.2 (Or.inl rfl)⟩

/-- Claim C6: with no frame captured yet, `/capture` answers the distinct
not-ready response (`"No frame available"`, 503) and changes nothing — in
particular the override deadline is untouched and no file or notification is
emitted; with a frame present it writes that frame to the captures file, sets
the override deadline to two seconds past `now`, emits one notification, and
returns the file as the snapshot artifact. -/
theorem C6_snapshot_endpoint (s : HubState) (ts : String) (now : ℚ) (f : Frame) :
    (s.latest_frame_full = none →
      capture ts now s = (.notReady "No frame available" 503, s, ⟨[], []⟩)) ∧
    (s.latest_frame_full = some f →
      capture ts now s =
        (.file (CAPTURES_DIR ++ "/capture_" ++ ts ++ ".jpg"),
         { s with flash_override_end := now + 2 },
         ⟨[(CAPTURES_DIR ++ "/capture_" ++ ts ++ ".jpg", f)], [.snapshot]⟩)) := by
  constructor <;> intro h <;> simp [capture, h, set_flash_override]

/-- Witness for C6: from the initial (frameless) state a request is answered
not-ready with nothing changed; with a one-pixel frame stored, the request
saves it, arms the override at `3 + 2`, notifies once and returns the file. -/
theorem C6_snapshot_endpoint_witness :
    capture "t" 3 initHub = (.notReady "No frame available" 503, initHub, ⟨[], []⟩) ∧
    capture "t" 3 { initHub with latest_frame_full := some [7] } =
      (.file (CAPTURES_DIR ++ "/capture_" ++ "t" ++ ".jpg"),
       { initHub with latest_frame_full := some [7], flash_override_end := 3 + 2 },
       ⟨[(CAPTURES_DIR ++ "/capture_" ++ "t" ++ ".jpg", [7])], [.snapshot]⟩) :=
  ⟨(C6_snapshot_endpoint initHub "t" 3 []).1 rfl,
   (C6_snapshot_endpoint { initHub with latest_frame_full := some [7] } "t" 3 [7]).2 rfl⟩

/-- Claim C7: `/off_led` always succeeds and sets the steady target to
`(0, 0, 0)`, for every state — it reads neither `motion_led_auto` nor any
other field, so it is not guarded by the auto-mode rejection. -/
theorem C7_force_off_unconditional (s : HubState) :
    (off_led_endpoint s).1 = .ok ∧
    (off_led_endpoint s).2.1.led_target = (0, 0, 0) ∧
    (off_led_endpoint s).2.1.motion_led_auto = s.motion_led_auto ∧
    (off_led_endpoint s).2.1.flash_override_end = s.flash_override_end ∧
    (off_led_endpoint s).2.2 = [.ledStatus] := by
  simp [off_led_endpoint, set_led_target]

/-- Claim C8: each `/toggle_motion_led` call flips `motion_led_auto` and
returns the new value without touching any other field, and two calls in
succession restore the entire state exactly. -/
theorem C8_toggle_auto_mode_involution (s : HubState) :
    (toggle_motion_led (toggle_motion_led s).2).2 = s ∧
    (toggle_motion_led s).1 = !s.motion_led_auto ∧
    (toggle_motion_led s).2.motion_led_auto = !s.motion_led_auto ∧
    (toggle_motion_led s).2.led_target = s.led_target ∧
    (toggle_motion_led s).2.flash_override_end = s.flash_override_end ∧
    (toggle_motion_led s).2.latest_frame_full = s.latest_frame_full ∧
    (toggle_motion_led s).2.prev_frame_gray = s.prev_frame_gray ∧
    (toggle_motion_led s).2.motion_detected = s.motion_detected := by
  cases s
  simp [toggle_motion_led]

/-- Claim C9: a capture-loop iteration in which `picam2.capture_array()`
raises leaves the entire shared state — the latest frame, the prior intensity
and the motion verdict — unchanged (the handler for the raised error merely
logs and the total step function yields the next iteration's start state), and
the prior intensity is replaced exactly in the iterations that obtained a
frame. -/
theorem C9_capture_failure_leaves_state (s : HubState) (f : Frame) :
    captureCycleResult none s = s ∧
    (captureCycleResult none s).latest_frame_full = s.latest_frame_full ∧
    (captureCycleResult none s).prev_frame_gray = s.prev_frame_gray ∧
    (captureCycleResult none s).motion_detected = s.motion_detected ∧
    (captureCycleResult (some f) s).prev_frame_gray = some (toGray f) :=
  ⟨rfl, rfl, rfl, rfl, rfl⟩

/-- Claim C10: with auto mode off, an absent channel parameter defaults to 0
for that channel; a request with an empty color payload succeeds and sets the
steady target to `(0, 0, 0)`, and a request carrying only green and blue
stores 0 for red and the divided values for the channels present. -/
theorem C10_absent_channel_defaults_zero (s : HubState) (g b : ℚ)
    (hauto : s.motion_led_auto = false) :
    ((set_led_endpoint ⟨none, none, none⟩ s).1 = .ok ∧
     (set_led_endpoint ⟨none, none, none⟩ s).2.1.led_target = (0, 0, 0)) ∧
    (set_led_endpoint ⟨none, some (.num g), some (.num b)⟩ s).2.1.led_target =
      (0, g / 100, b / 100) := by
  simp [set_led_endpoint, hauto, parseChannels, set_led_target]

/-- Witness for C10 at a concrete state and payload: the empty payload yields
success and target `(0, 0, 0)`; a payload of green 30 and blue 70 with red
absent yields `(0, 30/100, 70/100)`. -/
theorem C10_absent_channel_defaults_zero_witness :
    ((set_led_endpoint ⟨none, none, none⟩ { initHub with motion_led_auto := false }).1 = .ok ∧
     (set_led_endpoint ⟨none, none, none⟩
        { initHub with motion_led_auto := false }).2.1.led_target = (0, 0, 0)) ∧
    (set_led_endpoint ⟨none, some (.num 30), some (.num 70)⟩
        { initHub with motion_led_auto := false }).2.1.led_target = (0, 30 / 100, 70 / 100) :=
  C10_absent_channel_defaults_zero { initHub with motion_led_auto := false } 30 70 rfl
